import Mathlib

/-!
Verification of the text-overlay layout & animation filter compiler of the
video-composer repository. The TypeScript sources are shallowly embedded:
JS numbers are modelled as exact rationals (`ℚ`); a JS number that may be
`NaN` is modelled as `Option ℚ` with `none` standing for `NaN` (infinities
do not arise in the modelled code paths). Number-to-string rendering is
abstracted by `ratStr`, used consistently wherever the source interpolates
a number into a template string.
-/

namespace VC

/-- A JS number that may be `NaN` (`none` = `NaN`). -/
abbrev JSNum := Option ℚ

/-- JS addition with `NaN` propagation. -/
def jsAdd : JSNum → JSNum → JSNum
  | some a, some b => some (a + b)
  | _, _ => none

/-- JS subtraction with `NaN` propagation. -/
def jsSub : JSNum → JSNum → JSNum
  | some a, some b => some (a - b)
  | _, _ => none

/-- JS multiplication with `NaN` propagation. -/
def jsMul : JSNum → JSNum → JSNum
  | some a, some b => some (a * b)
  | _, _ => none

/-- JS division with `NaN` propagation (division by zero, which would give
an infinity in JS, does not occur in the modelled code: divisors are the
constant 100 or a nonzero duration). -/
def jsDiv : JSNum → JSNum → JSNum
  | some a, some b => if b = 0 then none else some (a / b)
  | _, _ => none

/-- JS `Math.round`: round half toward positive infinity. (`Rat.floor`
is the floor function on `ℚ`; see `jsRound_eq_floor` below.) -/
def jsRound (x : ℚ) : ℤ := Rat.floor (x + 1 / 2)

/-- JS `a || b` on numbers: `a` when truthy (nonzero), else `b`.
Models `overlay.animation.duration || this.defaultDuration`. -/
def jsOrNum (a b : ℚ) : ℚ := if a = 0 then b else a

/-- Deterministic rendering of a rational into a string; stands for JS
number-to-string conversion in template literals. (JS prints decimally,
e.g. "0.5" where this prints "1/2"; every claim below is insensitive to
the digits chosen, only to the rendering being a fixed function.) -/
def ratStr (q : ℚ) : String :=
  if q.den = 1 then toString q.num else toString q.num ++ "/" ++ toString q.den

/-- Rendering of a possibly-`NaN` JS number (JS prints `NaN`). -/
def jsValStr : JSNum → String
  | none => "NaN"
  | some q => ratStr q

/-- Single-quote character, written via an escape. -/
def sq : String := "\x27"

/-- Parse a run of decimal digits: value, number of digits consumed, rest. -/
def parseDigits : List Char → ℕ → ℕ → ℕ × ℕ × List Char
  | [], acc, n => (acc, n, [])
  | c :: cs, acc, n =>
    if c.isDigit then parseDigits cs (acc * 10 + (c.toNat - 48)) (n + 1)
    else (acc, n, c :: cs)

/-- JS whitespace (the forms relevant here). -/
def isJsWhitespace (c : Char) : Bool :=
  c == ' ' || c == '\t' || c == '\n' || c == '\r'

/-- JS `parseFloat`: skip leading whitespace, optional sign, decimal
digits with an optional fractional part; `none` = `NaN` when no digit is
consumed. (Exponent suffixes and the literal `Infinity`, which no modelled
input uses, are not represented.) -/
def jsParseFloat (s : String) : Option ℚ :=
  let cs := s.data.dropWhile isJsWhitespace
  let sgncs : ℚ × List Char :=
    match cs with
    | '-' :: r => (-1, r)
    | '+' :: r => (1, r)
    | r => (1, r)
  let (ip, ic, cs2) := parseDigits sgncs.2 0 0
  match cs2 with
  | '.' :: r =>
    let (fp, fc, _) := parseDigits r 0 0
    if ic + fc = 0 then none
    else some (sgncs.1 * ((ip : ℚ) + (fp : ℚ) / (10 : ℚ) ^ fc))
  | _ => if ic = 0 then none else some (sgncs.1 * (ip : ℚ))

/-- JS `s.replace('%', '')`: remove the first occurrence of a character. -/
def removeFirstOccur (t : Char) : List Char → List Char
  | [] => []
  | c :: cs => if c = t then cs else c :: removeFirstOccur t cs

/-- `originalY.replace("%", "")` on strings. -/
def replacePercent (s : String) : String := String.mk (removeFirstOccur '%' s.data)

/-- JS `s.includes('%')` (structural form of `String.contains`). -/
def strContains (s : String) (c : Char) : Bool := s.data.contains c

/-- First pass of drawtext escaping: `replace(/'/g, "\\'")`. -/
def escQuotes : List Char → List Char
  | [] => []
  | c :: cs =>
    if c = '\x27' then '\\' :: '\x27' :: escQuotes cs else c :: escQuotes cs

/-- Second pass of drawtext escaping: `replace(/:/g, "\\:")`. -/
def escColons : List Char → List Char
  | [] => []
  | c :: cs => if c = ':' then '\\' :: ':' :: escColons cs else c :: escColons cs

/-- `overlay.text.replace(/'/g, "\\'").replace(/:/g, "\\:")`. -/
def escapeDrawtext (s : String) : String := String.mk (escColons (escQuotes s.data))

/-- `fontPath.replace(/\\/g, '/')`. -/
def slashify (s : String) : String :=
  String.map (fun c => if c = '\\' then '/' else c) s

/-- Accumulating pass of `text.split("\n")`. -/
def splitNewlinesAux : List Char → List Char → List String
  | [], acc => [String.mk acc.reverse]
  | c :: cs, acc =>
    if c = '\n' then String.mk acc.reverse :: splitNewlinesAux cs []
    else splitNewlinesAux cs (c :: acc)

/-- JS `overlay.text.split("\n")` (the separator is the single newline
character; JS keeps empty segments, as does this). -/
def splitNewlines (s : String) : List String := splitNewlinesAux s.data []

/- ===================== Data model (src/caption/type.ts) ===================== -/

inductive TextAlign where
  | left
  | center
  | right
deriving DecidableEq, Repr

/-- A per-axis position value: a string or a JS number. -/
inductive PosVal where
  | str (s : String)
  | num (v : JSNum)
deriving DecidableEq, Repr

/-- A `string | Position` from type.ts. `obj` fields are `Option` because the
code guards on `position.x !== undefined && position.y !== undefined`;
records produced by the layout engine can carry an undefined axis when the
parent overlay used a preset string. -/
inductive Position where
  | preset (s : String)
  | obj (x y : Option PosVal)
deriving DecidableEq, Repr

structure TextOutline where
  enabled : Bool
  color : String
  width : ℚ
deriving DecidableEq, Repr

structure TextShadow where
  enabled : Bool
  color : String
  offsetX : ℚ
  offsetY : ℚ
deriving DecidableEq, Repr

structure TextBox where
  enabled : Bool
  color : String
  padding : ℚ
deriving DecidableEq, Repr

/-- Animation spec. `type` is the effect identifier; it is `Option String`
(rather than the static TS union) because the code treats it as an
arbitrary runtime string, checks it for truthiness, and handles unknown
identifiers dynamically. `enabled := false` also models an absent flag
(both are falsy). -/
structure Animation where
  enabled : Bool
  type : Option String
  duration : ℚ
  delay : Option ℚ
deriving DecidableEq, Repr

/-- `Partial<TextOutline>`: `none` = field absent from the override. -/
structure TextOutlinePatch where
  enabled : Option Bool
  color : Option String
  width : Option ℚ
deriving DecidableEq, Repr

structure TextShadowPatch where
  enabled : Option Bool
  color : Option String
  offsetX : Option ℚ
  offsetY : Option ℚ
deriving DecidableEq, Repr

structure TextBoxPatch where
  enabled : Option Bool
  color : Option String
  padding : Option ℚ
deriving DecidableEq, Repr

structure AnimationPatch where
  enabled : Option Bool
  type : Option (Option String)
  duration : Option ℚ
  delay : Option (Option ℚ)
deriving DecidableEq, Repr

structure TextElement where
  text : String
  line : ℕ
  fontSize : Option ℚ
  fontColor : Option String
  textOutline : Option TextOutlinePatch
  textShadow : Option TextShadowPatch
  textBox : Option TextBoxPatch
  animation : Option AnimationPatch
  startTime : Option ℚ
  endTime : Option ℚ
  textAlign : Option TextAlign
deriving DecidableEq, Repr

/-- A TextOverlay. `fontFamily` is the string font identifier (the class
instance variant resolves to a path string through the same field and is
not modelled separately). The `_`-prefixed provenance metadata fields of
the source, documented as never used in rendering math, are omitted. -/
structure TextOverlay where
  text : String
  textElements : List TextElement
  startTime : ℚ
  endTime : ℚ
  fontSize : ℚ
  fontFamily : String
  fontColor : String
  position : Position
  textAlign : Option TextAlign
  textOutline : TextOutline
  textShadow : TextShadow
  textBox : TextBox
  animation : Animation
  fontPath : Option String
deriving DecidableEq, Repr

/-- The `ctx` record handed to every style applier. -/
structure Ctx where
  videoHeight : ℚ
deriving DecidableEq, Repr

structure VideoDimensions where
  width : ℚ
  height : ℚ
deriving DecidableEq, Repr

structure ProcessingContext where
  videoHeight : ℚ
  videoWidth : Option ℚ
deriving DecidableEq, Repr

/-- `overlay.position.x` (undefined on a preset string). -/
def posX : Position → Option PosVal
  | .preset _ => none
  | .obj x _ => x

/-- `overlay.position.y` (undefined on a preset string). -/
def posY : Position → Option PosVal
  | .preset _ => none
  | .obj _ y => y

/- ============ Font Size Resolver (FontStyle.calculateFontSize, also
   duplicated verbatim in MultiLineProcessor.calculateFontSize) ============ -/

/-- `calculateFontSize(fontSize, videoHeight)`: values ≤ 20 are a
percentage of video height, `Math.round((fontSize / 100) * videoHeight)`;
values > 20 are returned unchanged. -/
def calculateFontSize (fontSize videoHeight : ℚ) : ℚ :=
  if fontSize ≤ 20 then ((jsRound (fontSize / 100 * videoHeight) : ℤ) : ℚ)
  else fontSize

/- ===== Coordinate Resolver (PositionStyle.getPositionCoordinates; the
   per-axis logic is duplicated verbatim in
   AnimationStyle.getCoordinatesForEffect) ===== -/

/-- X-coordinate expression for a defined `position.x`, with alignment. -/
def xCoord (x : PosVal) (textAlign : TextAlign) : String :=
  match x with
  | .str s =>
    if strContains s '%' then
      -- const percentage = parseFloat(position.x.replace('%', '')) / 100
      let percentage := jsDiv (jsParseFloat (replacePercent s)) (some 100)
      match textAlign with
      | .left => "w*" ++ jsValStr percentage
      | .right => "w*" ++ jsValStr percentage ++ "-text_w"
      | .center => "w*" ++ jsValStr percentage ++ "-text_w/2"
    else
      match jsParseFloat s with
      | some pixelX =>
        match textAlign with
        | .left => ratStr pixelX
        | .right => ratStr pixelX ++ "-text_w"
        | .center => ratStr pixelX ++ "-text_w/2"
      | none => "(w-text_w)/2" -- Fallback to center
  | .num v =>
    -- typeof position.x === 'number' (NaN included): pixelX = position.x
    match textAlign with
    | .left => jsValStr v
    | .right => jsValStr v ++ "-text_w"
    | .center => jsValStr v ++ "-text_w/2"

/-- Y-coordinate expression for a defined `position.y` (no alignment). -/
def yCoord (y : PosVal) : String :=
  match y with
  | .str s =>
    if strContains s '%' then
      let percentage := jsDiv (jsParseFloat (replacePercent s)) (some 100)
      "h*" ++ jsValStr percentage ++ "-text_h/2"
    else
      match jsParseFloat s with
      | some _ => s -- position.y.toString() on a numeric string is the string
      | none => "(h-text_h)/2" -- Fallback to center
  | .num v => jsValStr v -- position.y.toString()

/-- The named-preset lookup table. -/
def presetPositions : List (String × String) :=
  [ ("top-left", "50:50")
  , ("top-center", "(w-text_w)/2:50")
  , ("top-right", "w-text_w-50:50")
  , ("middle-left", "50:(h-text_h)/2")
  , ("middle-center", "(w-text_w)/2:(h-text_h)/2")
  , ("middle-right", "w-text_w-50:(h-text_h)/2")
  , ("bottom-left", "50:h-text_h-50")
  , ("bottom-center", "(w-text_w)/2:h-text_h-50")
  , ("bottom-right", "w-text_w-50:h-text_h-50")
  , ("center", "(w-text_w)/2:(h-text_h)/2") ]

/-- `getPositionCoordinates(position, videoWidth, videoHeight, textAlign)`.
The `videoWidth`/`videoHeight` parameters are unused in the source body
exactly as here. An object with an undefined axis fails the guard and
falls through to the preset lookup, which misses (`positions[object]` is
undefined) and yields center. -/
def getPositionCoordinates (position : Position) (videoWidth videoHeight : ℚ)
    (textAlign : TextAlign) : String :=
  match position with
  | .obj (some x) (some y) => xCoord x textAlign ++ ":" ++ yCoord y
  | .obj _ _ => "(w-text_w)/2:(h-text_h)/2"
  | .preset s => ((presetPositions.lookup s).getD "(w-text_w)/2:(h-text_h)/2")

/-- `PositionStyle.apply`: appends `:x=...:y=...` using a constant
videoWidth of 1920 (the probed width is never passed in). -/
def PositionStyle.apply (filter : String) (overlay : TextOverlay) (ctx : Ctx) : String :=
  let coordinates :=
    getPositionCoordinates overlay.position 1920 ctx.videoHeight
      (overlay.textAlign.getD TextAlign.center)
  let parts := coordinates.splitOn ":"
  filter ++ ":x=" ++ parts.getD 0 "" ++ ":y=" ++ parts.getD 1 ""

/- ========== Multi-Line & Word-Element Layout Engine
   (MultiLineProcessor) ========== -/

/-- `calculateStartingYForBlock(originalY, totalHeight, videoHeight)`:
center-Y of the block minus half the total height. A percentage string may
parse to `NaN`, which propagates. -/
def calculateStartingYForBlock (originalY : Option PosVal)
    (totalHeight videoHeight : ℚ) : JSNum :=
  match originalY with
  | some (.str s) =>
    if strContains s '%' then
      let percentage := jsDiv (jsParseFloat (replacePercent s)) (some 100)
      let centerY := jsMul (some videoHeight) percentage
      jsSub centerY (some (totalHeight / 2))
    else
      match jsParseFloat s with
      | some v => some (v - totalHeight / 2)
      | none => some (videoHeight / 2 - totalHeight / 2)
  | some (.num v) => jsSub v (some (totalHeight / 2))
  | none => some (videoHeight / 2 - totalHeight / 2)

/-- The center-Y each branch of `calculateStartingYForBlock` computes
before subtracting `totalHeight / 2` (named for the statements below). -/
def blockCenterY (originalY : Option PosVal) (videoHeight : ℚ) : JSNum :=
  match originalY with
  | some (.str s) =>
    if strContains s '%' then
      jsMul (some videoHeight) (jsDiv (jsParseFloat (replacePercent s)) (some 100))
    else
      match jsParseFloat s with
      | some v => some v
      | none => some (videoHeight / 2)
  | some (.num v) => v
  | none => some (videoHeight / 2)

/-- The distinct line numbers of the elements in ascending order: models
`Object.keys(lineGroups).sort((a, b) => parseInt(a) - parseInt(b))`. -/
def sortedLines (elements : List TextElement) : List ℕ :=
  (List.range (elements.foldr (fun e m => max e.line m) 0 + 1)).filter
    (fun n => elements.any (fun e => e.line == n))

/-- `Math.max(...)` over a list (left fold; only applied to nonempty
lists, i.e. lines that actually carry elements). -/
def listMax : List ℚ → ℚ
  | [] => 0
  | x :: xs => xs.foldl max x

/-- The resolved font size of one element:
`calculateFontSize(el.fontSize !== undefined ? el.fontSize : overlay.fontSize, videoHeight)`. -/
def elementFontSize (o : TextOverlay) (videoHeight : ℚ) (e : TextElement) : ℚ :=
  calculateFontSize (e.fontSize.getD o.fontSize) videoHeight

/-- `lineHeights[lineNum] = maxFontSize * lineSpacing` with
`lineSpacing = 1.2`. -/
def lineHeightOf (o : TextOverlay) (videoHeight : ℚ) (n : ℕ) : ℚ :=
  listMax ((o.textElements.filter (fun e => e.line == n)).map
    (elementFontSize o videoHeight)) * 1.2

/-- Total block height: sum of the line heights in ascending line order. -/
def totalBlockHeight (o : TextOverlay) (videoHeight : ℚ) : ℚ :=
  ((sortedLines o.textElements).map (lineHeightOf o videoHeight)).sum

/-- The cumulative walk assigning each line its Y:
`lineYPositions[lineNum] = currentY; currentY += lineHeights[lineNum]`. -/
def assignYs : List ℕ → JSNum → (ℕ → ℚ) → List (ℕ × JSNum)
  | [], _, _ => []
  | n :: rest, currentY, h => (n, currentY) :: assignYs rest (jsAdd currentY (some (h n))) h

/-- `startingY` for the word-element path. -/
def startingYOfBlock (o : TextOverlay) (videoHeight : ℚ) : JSNum :=
  calculateStartingYForBlock (posY o.position) (totalBlockHeight o videoHeight) videoHeight

/-- `lineYPositions[...]` as a function of the line number (every
element's line is present, so the lookup never misses). -/
def lineYFun (o : TextOverlay) (videoHeight : ℚ) : ℕ → JSNum := fun n =>
  ((assignYs (sortedLines o.textElements) (startingYOfBlock o videoHeight)
      (lineHeightOf o videoHeight)).lookup n).getD none

/-- `{ ...overlay.textOutline, ...(element.textOutline || {}) }`. -/
def mergeOutline (parent : TextOutline) : Option TextOutlinePatch → TextOutline
  | none => parent
  | some p =>
    { enabled := p.enabled.getD parent.enabled
      color := p.color.getD parent.color
      width := p.width.getD parent.width }

/-- `{ ...overlay.textShadow, ...(element.textShadow || {}) }`. -/
def mergeShadow (parent : TextShadow) : Option TextShadowPatch → TextShadow
  | none => parent
  | some p =>
    { enabled := p.enabled.getD parent.enabled
      color := p.color.getD parent.color
      offsetX := p.offsetX.getD parent.offsetX
      offsetY := p.offsetY.getD parent.offsetY }

/-- `{ ...overlay.textBox, ...(element.textBox || {}) }`. -/
def mergeBox (parent : TextBox) : Option TextBoxPatch → TextBox
  | none => parent
  | some p =>
    { enabled := p.enabled.getD parent.enabled
      color := p.color.getD parent.color
      padding := p.padding.getD parent.padding }

/-- `{ ...overlay.animation, ...(element.animation || {}) }`. -/
def mergeAnimation (parent : Animation) : Option AnimationPatch → Animation
  | none => parent
  | some p =>
    { enabled := p.enabled.getD parent.enabled
      type := p.type.getD parent.type
      duration := p.duration.getD parent.duration
      delay := p.delay.getD parent.delay }

/-- `element.textAlign || overlay.textAlign || "center"`. -/
def resolveAlign (e : Option TextAlign) (o : Option TextAlign) : TextAlign :=
  match e with
  | some a => a
  | none => o.getD TextAlign.center

/-- One merged record of `parseTextElements`: spread of all parent fields,
overridden by the element's own fields, position rebuilt from the parent X
and the line's Y, and the four nested spec objects merged key-by-key. -/
def mergeTextElement (o : TextOverlay) (ys : ℕ → JSNum) (e : TextElement) : TextOverlay :=
  { text := e.text
    textElements := o.textElements
    startTime := e.startTime.getD o.startTime
    endTime := e.endTime.getD o.endTime
    fontSize := e.fontSize.getD o.fontSize
    fontFamily := o.fontFamily
    fontColor := e.fontColor.getD o.fontColor
    position := Position.obj (posX o.position) (some (PosVal.num (ys e.line)))
    textAlign := some (resolveAlign e.textAlign o.textAlign)
    textOutline := mergeOutline o.textOutline e.textOutline
    textShadow := mergeShadow o.textShadow e.textShadow
    textBox := mergeBox o.textBox e.textBox
    animation := mergeAnimation o.animation e.animation
    fontPath := o.fontPath }

/-- `MultiLineProcessor.parseTextElements`. -/
def parseTextElements (o : TextOverlay) (videoHeight : ℚ) : List TextOverlay :=
  o.textElements.map (mergeTextElement o (lineYFun o videoHeight))

/-- `MultiLineProcessor.parseMultiLineText`: dispatch to the word-element
path, else split on line breaks and stack the lines. -/
def parseMultiLineText (o : TextOverlay) (videoHeight : ℚ) : List TextOverlay :=
  if o.textElements ≠ [] then parseTextElements o videoHeight
  else
    let lines := splitNewlines o.text
    if lines.length = 1 then [o]
    else
      let fontSize := calculateFontSize o.fontSize videoHeight
      let lineHeight := fontSize * 1.2
      let totalHeight := lineHeight * (lines.length : ℚ)
      let startingY := calculateStartingYForBlock (posY o.position) totalHeight videoHeight
      lines.mapIdx fun index line =>
        { o with
          text := line.trim
          position := Position.obj (posX o.position)
            (some (PosVal.num (jsAdd startingY (some ((index : ℚ) * lineHeight)))))
          textAlign := some (o.textAlign.getD TextAlign.center) }

/- ========== Style Chain (src/caption/styles) ========== -/

/-- `FontStyle.apply`: font file (when `fontPath` is truthy) and resolved
font size. -/
def FontStyle.apply (filter : String) (o : TextOverlay) (ctx : Ctx) : String :=
  let withFile :=
    match o.fontPath with
    | some p => if p = "" then filter
                else filter ++ ":fontfile=" ++ sq ++ slashify p ++ sq
    | none => filter
  withFile ++ ":fontsize=" ++ ratStr (calculateFontSize o.fontSize ctx.videoHeight)

/-- `ColorStyle.apply`: font color when truthy. -/
def ColorStyle.apply (filter : String) (o : TextOverlay) (_ctx : Ctx) : String :=
  if o.fontColor = "" then filter else filter ++ ":fontcolor=" ++ o.fontColor

/-- `OutlineStyle.apply`. -/
def OutlineStyle.apply (filter : String) (o : TextOverlay) (_ctx : Ctx) : String :=
  if o.textOutline.enabled then
    filter ++ ":borderw=" ++ ratStr o.textOutline.width ++ ":bordercolor=" ++ o.textOutline.color
  else filter

/-- `ShadowStyle.apply`. -/
def ShadowStyle.apply (filter : String) (o : TextOverlay) (_ctx : Ctx) : String :=
  if o.textShadow.enabled then
    filter ++ ":shadowx=" ++ ratStr o.textShadow.offsetX ++ ":shadowy=" ++
      ratStr o.textShadow.offsetY ++ ":shadowcolor=" ++ o.textShadow.color
  else filter

/-- `BoxStyle.apply`. -/
def BoxStyle.apply (filter : String) (o : TextOverlay) (_ctx : Ctx) : String :=
  if o.textBox.enabled then
    filter ++ ":box=1:boxcolor=" ++ o.textBox.color ++ ":boxborderw=" ++ ratStr o.textBox.padding
  else filter

/- ========== Animation Expression Generator (src/caption/effects) ========== -/

/-- The always-present visibility gate
`:enable='between(t,start,end)'`. -/
def enableGate (startTime endTime : ℚ) : String :=
  ":enable=" ++ sq ++ "between(t," ++ ratStr startTime ++ "," ++ ratStr endTime ++ ")" ++ sq

/-- The closed set of registered effect variants. -/
inductive EffectKind where
  | fadeIn
  | fadeOut
  | slideUp
  | slideDown
  | slideLeft
  | slideRight
  | zoomIn
  | zoomOut
deriving DecidableEq, Repr

/-- Per-effect default duration (from each effect's constructor). -/
def defaultDuration : EffectKind → ℚ
  | .fadeIn => 0.5
  | .fadeOut => 0.5
  | .slideUp => 0.8
  | .slideDown => 0.8
  | .slideLeft => 0.8
  | .slideRight => 0.8
  | .zoomIn => 0.6
  | .zoomOut => 0.6

/-- The registered effect identifiers (keys of the EffectsManager map and
cases of the EffectFactory switch). -/
def registeredEffectNames : List String :=
  ["fade-in", "fade-out", "slide-up", "slide-down", "slide-left",
   "slide-right", "zoom-in", "zoom-out"]

/-- `EffectFactory.getEffect` / `EffectsManager.getEffect`: resolve an
effect identifier; `none` models the `throw` on an unknown identifier. -/
def EffectFactory.getEffect (effectType : String) : Option EffectKind :=
  if effectType = "fade-in" then some .fadeIn
  else if effectType = "fade-out" then some .fadeOut
  else if effectType = "slide-up" then some .slideUp
  else if effectType = "slide-down" then some .slideDown
  else if effectType = "slide-left" then some .slideLeft
  else if effectType = "slide-right" then some .slideRight
  else if effectType = "zoom-in" then some .zoomIn
  else if effectType = "zoom-out" then some .zoomOut
  else none

/-- `overlay.animation.duration || defaultDuration` for an effect. -/
def effectDuration (k : EffectKind) (o : TextOverlay) : ℚ :=
  jsOrNum o.animation.duration (defaultDuration k)

/-- `overlay.animation.delay || 0`. -/
def effectDelay (o : TextOverlay) : ℚ := (o.animation.delay.getD 0)

/-- `FadeInEffect.generateFilter`. -/
def FadeInEffect.generateFilter (o : TextOverlay) (_coordinates : String)
    (_videoHeight : ℚ) : String :=
  let duration := effectDuration .fadeIn o
  let actualStartTime := o.startTime + effectDelay o
  let fadeInEnd := actualStartTime + duration
  enableGate o.startTime o.endTime ++
    ":alpha=" ++ sq ++ "if(lt(t," ++ ratStr fadeInEnd ++ "),(t-" ++
      ratStr actualStartTime ++ ")/" ++ ratStr duration ++ ",1)" ++ sq

/-- `FadeOutEffect.generateFilter`. -/
def FadeOutEffect.generateFilter (o : TextOverlay) (_coordinates : String)
    (_videoHeight : ℚ) : String :=
  let duration := effectDuration .fadeOut o
  let fadeOutStart := o.endTime - duration - effectDelay o
  enableGate o.startTime o.endTime ++
    ":alpha=" ++ sq ++ "if(gt(t," ++ ratStr fadeOutStart ++ "),(" ++
      ratStr o.endTime ++ "-t)/" ++ ratStr duration ++ ",1)" ++ sq

/-- `ZoomInEffect.generateFilter` (zoom simulated via alpha, same shape as
fade-in but with the 0.6 default duration). -/
def ZoomInEffect.generateFilter (o : TextOverlay) (_coordinates : String)
    (_videoHeight : ℚ) : String :=
  let duration := effectDuration .zoomIn o
  let actualStartTime := o.startTime + effectDelay o
  let zoomEnd := actualStartTime + duration
  enableGate o.startTime o.endTime ++
    ":alpha=" ++ sq ++ "if(lt(t," ++ ratStr zoomEnd ++ "),(t-" ++
      ratStr actualStartTime ++ ")/" ++ ratStr duration ++ ",1)" ++ sq

/-- `ZoomOutEffect.generateFilter`. -/
def ZoomOutEffect.generateFilter (o : TextOverlay) (_coordinates : String)
    (_videoHeight : ℚ) : String :=
  let duration := effectDuration .zoomOut o
  let zoomStart := o.endTime - duration - effectDelay o
  enableGate o.startTime o.endTime ++
    ":alpha=" ++ sq ++ "if(gt(t," ++ ratStr zoomStart ++ "),(" ++
      ratStr o.endTime ++ "-t)/" ++ ratStr duration ++ ",1)" ++ sq

/-- `SlideUpEffect.generateFilter`. -/
def SlideUpEffect.generateFilter (o : TextOverlay) (coordinates : String)
    (_videoHeight : ℚ) : String :=
  let duration := effectDuration .slideUp o
  let actualStartTime := o.startTime + effectDelay o
  let slideEnd := actualStartTime + duration
  let cy := (coordinates.splitOn ":").getD 1 ""
  enableGate o.startTime o.endTime ++
    ":y=" ++ sq ++ "if(lt(t," ++ ratStr slideEnd ++ "),h+(" ++ ratStr slideEnd ++
      "-t)/" ++ ratStr duration ++ "*h*0.1-text_h," ++ cy ++ ")" ++ sq

/-- `SlideDownEffect.generateFilter`. -/
def SlideDownEffect.generateFilter (o : TextOverlay) (coordinates : String)
    (_videoHeight : ℚ) : String :=
  let duration := effectDuration .slideDown o
  let actualStartTime := o.startTime + effectDelay o
  let slideEnd := actualStartTime + duration
  let cy := (coordinates.splitOn ":").getD 1 ""
  enableGate o.startTime o.endTime ++
    ":y=" ++ sq ++ "if(lt(t," ++ ratStr slideEnd ++ "),-text_h+(t-" ++
      ratStr actualStartTime ++ ")/" ++ ratStr duration ++ "*(" ++ cy ++
      "+text_h)," ++ cy ++ ")" ++ sq

/-- `SlideLeftEffect.generateFilter`. -/
def SlideLeftEffect.generateFilter (o : TextOverlay) (coordinates : String)
    (_videoHeight : ℚ) : String :=
  let duration := effectDuration .slideLeft o
  let actualStartTime := o.startTime + effectDelay o
  let slideEnd := actualStartTime + duration
  let cx := (coordinates.splitOn ":").getD 0 ""
  enableGate o.startTime o.endTime ++
    ":x=" ++ sq ++ "if(lt(t," ++ ratStr slideEnd ++ "),w-(t-" ++
      ratStr actualStartTime ++ ")/" ++ ratStr duration ++ "*w," ++ cx ++ ")" ++ sq

/-- `SlideRightEffect.generateFilter`. -/
def SlideRightEffect.generateFilter (o : TextOverlay) (coordinates : String)
    (_videoHeight : ℚ) : String :=
  let duration := effectDuration .slideRight o
  let actualStartTime := o.startTime + effectDelay o
  let slideEnd := actualStartTime + duration
  let cx := (coordinates.splitOn ":").getD 0 ""
  enableGate o.startTime o.endTime ++
    ":x=" ++ sq ++ "if(lt(t," ++ ratStr slideEnd ++ "),-text_w+(t-" ++
      ratStr actualStartTime ++ ")/" ++ ratStr duration ++ "*(" ++ cx ++
      "+text_w)," ++ cx ++ ")" ++ sq

/-- Dispatch `effect.generateFilter` over the variant. -/
def generateEffect (k : EffectKind) (o : TextOverlay) (coordinates : String)
    (videoHeight : ℚ) : String :=
  match k with
  | .fadeIn => FadeInEffect.generateFilter o coordinates videoHeight
  | .fadeOut => FadeOutEffect.generateFilter o coordinates videoHeight
  | .slideUp => SlideUpEffect.generateFilter o coordinates videoHeight
  | .slideDown => SlideDownEffect.generateFilter o coordinates videoHeight
  | .slideLeft => SlideLeftEffect.generateFilter o coordinates videoHeight
  | .slideRight => SlideRightEffect.generateFilter o coordinates videoHeight
  | .zoomIn => ZoomInEffect.generateFilter o coordinates videoHeight
  | .zoomOut => ZoomOutEffect.generateFilter o coordinates videoHeight

/-- JS truthiness of `overlay.animation.type`. -/
def animTypeTruthy : Option String → Bool
  | none => false
  | some s => s != ""

/-- `AnimationStyle.getCoordinatesForEffect`: recomputes the per-axis
coordinates (same logic as `getPositionCoordinates`, but the non-object
fallback is the plain center pair). -/
def AnimationStyle.getCoordinatesForEffect (o : TextOverlay) (_videoHeight : ℚ) : String :=
  let textAlign := o.textAlign.getD TextAlign.center
  match o.position with
  | .obj (some x) (some y) => xCoord x textAlign ++ ":" ++ yCoord y
  | _ => "(w-text_w)/2:(h-text_h)/2"

/-- `AnimationStyle.apply` with the `console.warn` side effect made
visible: the `Bool` is true exactly when the catch branch ran (a warning
was printed). The function is total: the thrown unknown-effect error is
caught inside and never escapes. -/
def AnimationStyle.applyW (filter : String) (o : TextOverlay) (ctx : Ctx) : String × Bool :=
  if o.animation.enabled && animTypeTruthy o.animation.type then
    match o.animation.type with
    | some ty =>
      match EffectFactory.getEffect ty with
      | some k =>
        let coordinates := AnimationStyle.getCoordinatesForEffect o ctx.videoHeight
        (filter ++ generateEffect k o coordinates ctx.videoHeight, false)
      | none => (filter ++ enableGate o.startTime o.endTime, true)
    | none => (filter ++ enableGate o.startTime o.endTime, false)
  else
    (filter ++ enableGate o.startTime o.endTime, false)

/-- `AnimationStyle.apply`: the returned filter string. -/
def AnimationStyle.apply (filter : String) (o : TextOverlay) (ctx : Ctx) : String :=
  (AnimationStyle.applyW filter o ctx).1

/-- `EffectsManager.generateEffectFilter`, with the warning flag. -/
def EffectsManager.generateEffectFilter (o : TextOverlay) (coordinates : String)
    (videoHeight : ℚ) : String × Bool :=
  if !o.animation.enabled then
    (enableGate o.startTime o.endTime, false)
  else
    match o.animation.type with
    | some ty =>
      match EffectFactory.getEffect ty with
      | some k => (generateEffect k o coordinates videoHeight, false)
      | none => (enableGate o.startTime o.endTime, true)
    | none => (enableGate o.startTime o.endTime, true)

/-- `StyleManager.buildFilter`: escape the text, then apply the fixed
chain font → color → outline → shadow → box → position → animation. -/
def StyleManager.buildFilter (o : TextOverlay) (ctx : Ctx) : String :=
  let f0 := "drawtext=text=" ++ sq ++ escapeDrawtext o.text ++ sq
  let f1 := FontStyle.apply f0 o ctx
  let f2 := ColorStyle.apply f1 o ctx
  let f3 := OutlineStyle.apply f2 o ctx
  let f4 := ShadowStyle.apply f3 o ctx
  let f5 := BoxStyle.apply f4 o ctx
  let f6 := PositionStyle.apply f5 o ctx
  AnimationStyle.apply f6 o ctx

/- ========== Compiler facade (VideoTextApplication) ========== -/

/-- `FontPathProcessor.handleProcess`: resolve the font identifier into
`fontPath` (string identifiers pass through unchanged). -/
def FontPathProcessor.handleProcess (overlays : List TextOverlay)
    (_context : ProcessingContext) : List TextOverlay :=
  overlays.map fun o => { o with fontPath := some o.fontFamily }

/-- `MultiLineProcessor.handleProcess`: expand every overlay. -/
def MultiLineProcessor.handleProcess (overlays : List TextOverlay)
    (context : ProcessingContext) : List TextOverlay :=
  overlays.flatMap fun o => parseMultiLineText o context.videoHeight

/-- `VideoTextApplication.processOverlays`: build the context from the
probed dimensions and run the processor chain. -/
def processOverlays (config : List TextOverlay) (videoDimensions : VideoDimensions) :
    List TextOverlay :=
  let context : ProcessingContext :=
    { videoHeight := videoDimensions.height, videoWidth := some videoDimensions.width }
  MultiLineProcessor.handleProcess (FontPathProcessor.handleProcess config context) context

/-- Steps 3 and 5 of `VideoTextApplication.processVideo`: expand the
overlays, build one filter per record (the style context carries only the
height), and join with ",". -/
def generateVideoFilters (config : List TextOverlay) (videoDimensions : VideoDimensions) :
    String :=
  let processed := processOverlays config videoDimensions
  String.intercalate ","
    (processed.map fun o => StyleManager.buildFilter o { videoHeight := videoDimensions.height })

/- ========== Denotations of the emitted time expressions ==========

The effect generators above emit ffmpeg expressions over the time
variable `t` and the renderer symbols `w`, `h`, `text_w`, `text_h`. The
functions below are the pointwise values of those exact expressions; each
doc comment quotes the expression it reads off. -/

/-- Environment giving values to the renderer's symbolic variables. -/
structure FilterEnv where
  w : ℚ
  h : ℚ
  text_w : ℚ
  text_h : ℚ
deriving DecidableEq, Repr

/-- Value at time `t` of the fade-in alpha expression
`if(lt(t,fadeInEnd),(t-actualStartTime)/duration,1)`. -/
def fadeInAlphaVal (o : TextOverlay) (t : ℚ) : ℚ :=
  let duration := effectDuration .fadeIn o
  let actualStartTime := o.startTime + effectDelay o
  let fadeInEnd := actualStartTime + duration
  if t < fadeInEnd then (t - actualStartTime) / duration else 1

/-- Value at time `t` of the zoom-in alpha expression (same shape as
fade-in, 0.6 default duration). -/
def zoomInAlphaVal (o : TextOverlay) (t : ℚ) : ℚ :=
  let duration := effectDuration .zoomIn o
  let actualStartTime := o.startTime + effectDelay o
  let zoomEnd := actualStartTime + duration
  if t < zoomEnd then (t - actualStartTime) / duration else 1

/-- Value at time `t` of the fade-out alpha expression
`if(gt(t,fadeOutStart),(endTime-t)/duration,1)`. -/
def fadeOutAlphaVal (o : TextOverlay) (t : ℚ) : ℚ :=
  let duration := effectDuration .fadeOut o
  let fadeOutStart := o.endTime - duration - effectDelay o
  if fadeOutStart < t then (o.endTime - t) / duration else 1

/-- Value at time `t` of the zoom-out alpha expression (same shape as
fade-out, 0.6 default duration). -/
def zoomOutAlphaVal (o : TextOverlay) (t : ℚ) : ℚ :=
  let duration := effectDuration .zoomOut o
  let zoomStart := o.endTime - duration - effectDelay o
  if zoomStart < t then (o.endTime - t) / duration else 1

/-- The ramp branch of the slide-right x expression:
`-text_w+(t-actualStartTime)/duration*(X+text_w)` where `X` is the value
of the spliced static x coordinate. -/
def slideRightRamp (env : FilterEnv) (x : ℚ) (o : TextOverlay) (t : ℚ) : ℚ :=
  let duration := effectDuration .slideRight o
  let actualStartTime := o.startTime + effectDelay o;
  (-env.text_w) + (t - actualStartTime) / duration * (x + env.text_w)

/-- Value at time `t` of the slide-right x expression
`if(lt(t,slideEnd),-text_w+(t-actualStartTime)/duration*(X+text_w),X)`. -/
def slideRightXVal (env : FilterEnv) (x : ℚ) (o : TextOverlay) (t : ℚ) : ℚ :=
  let duration := effectDuration .slideRight o
  let slideEnd := o.startTime + effectDelay o + duration
  if t < slideEnd then slideRightRamp env x o t else x

/-- The ramp branch of the slide-down y expression:
`-text_h+(t-actualStartTime)/duration*(Y+text_h)`. -/
def slideDownRamp (env : FilterEnv) (y : ℚ) (o : TextOverlay) (t : ℚ) : ℚ :=
  let duration := effectDuration .slideDown o
  let actualStartTime := o.startTime + effectDelay o;
  (-env.text_h) + (t - actualStartTime) / duration * (y + env.text_h)

/-- Value at time `t` of the slide-down y expression. -/
def slideDownYVal (env : FilterEnv) (y : ℚ) (o : TextOverlay) (t : ℚ) : ℚ :=
  let duration := effectDuration .slideDown o
  let slideEnd := o.startTime + effectDelay o + duration
  if t < slideEnd then slideDownRamp env y o t else y

/-- The ramp branch of the slide-left x expression:
`w-(t-actualStartTime)/duration*w` (the spliced static coordinate does
not occur in the ramp). -/
def slideLeftRamp (env : FilterEnv) (o : TextOverlay) (t : ℚ) : ℚ :=
  let duration := effectDuration .slideLeft o
  let actualStartTime := o.startTime + effectDelay o
  env.w - (t - actualStartTime) / duration * env.w

/-- Value at time `t` of the slide-left x expression
`if(lt(t,slideEnd),w-(t-actualStartTime)/duration*w,X)`. -/
def slideLeftXVal (env : FilterEnv) (x : ℚ) (o : TextOverlay) (t : ℚ) : ℚ :=
  let duration := effectDuration .slideLeft o
  let slideEnd := o.startTime + effectDelay o + duration
  if t < slideEnd then slideLeftRamp env o t else x

/-- The ramp branch of the slide-up y expression:
`h+(slideEnd-t)/duration*h*0.1-text_h`. -/
def slideUpRamp (env : FilterEnv) (o : TextOverlay) (t : ℚ) : ℚ :=
  let duration := effectDuration .slideUp o
  let slideEnd := o.startTime + effectDelay o + duration
  env.h + (slideEnd - t) / duration * env.h * 0.1 - env.text_h

/-- Value at time `t` of the slide-up y expression. -/
def slideUpYVal (env : FilterEnv) (y : ℚ) (o : TextOverlay) (t : ℚ) : ℚ :=
  let duration := effectDuration .slideUp o
  let slideEnd := o.startTime + effectDelay o + duration
  if t < slideEnd then slideUpRamp env o t else y

/-- Project the numeric y of a record produced by the layout engine. -/
def recordY (r : TextOverlay) : JSNum :=
  match posY r.position with
  | some (.num v) => v
  | _ => none

/- ========== Concrete sample data for witnesses ========== -/

/-- A word element with no overrides. -/
def elemBase : TextElement :=
  { text := "", line := 0, fontSize := none, fontColor := none, textOutline := none,
    textShadow := none, textBox := none, animation := none, startTime := none,
    endTime := none, textAlign := none }

/-- A plain overlay used as the base of the concrete test inputs. -/
def overlayBase : TextOverlay :=
  { text := "Hi"
    textElements := []
    startTime := 0
    endTime := 10
    fontSize := 6
    fontFamily := "DMSerifDisplay-Italic.ttf"
    fontColor := "white"
    position := Position.obj (some (PosVal.str "50%")) (some (PosVal.str "50%"))
    textAlign := some TextAlign.center
    textOutline := { enabled := true, color := "black", width := 3 }
    textShadow := { enabled := false, color := "black", offsetX := 2, offsetY := 2 }
    textBox := { enabled := false, color := "black@0.5", padding := 10 }
    animation := { enabled := false, type := none, duration := 0, delay := none }
    fontPath := none }

/-- Two-line word-element overlay (the spec's 1000-px scenario). -/
def overlayTwoLines : TextOverlay :=
  { overlayBase with
    text := "Hello\nWorld"
    textElements := [{ elemBase with text := "Hello", line := 0 },
                     { elemBase with text := "World", line := 1 }] }

/-- Two-line plain-text overlay (no word elements). -/
def overlayPlainTwo : TextOverlay :=
  { overlayBase with text := "Hello\nWorld" }

/-- An element overriding only `textOutline.color`. -/
def outlineColorPatch : TextOutlinePatch :=
  { enabled := none, color := some "red", width := none }

/-- Element for the merge test: overrides only one sub-property of each
nested spec object. -/
def elemMergeTest : TextElement :=
  { elemBase with text := "images", line := 0, textOutline := some outlineColorPatch }

/-- Overlay owning `elemMergeTest`. -/
def overlayMergeTest : TextOverlay :=
  { overlayBase with text := "images", textElements := [elemMergeTest] }

/-- Overlay with a disabled animation that still names an effect. -/
def overlayDisabledAnim : TextOverlay :=
  { overlayBase with
    animation := { enabled := false, type := some "slide-up", duration := 1, delay := none } }

/-- Overlay with an enabled but unregistered effect identifier. -/
def overlaySpin : TextOverlay :=
  { overlayBase with
    animation := { enabled := true, type := some "spin", duration := 1, delay := none } }

/-- Overlay with an enabled fade-in of duration 1 and no delay. -/
def overlayFade : TextOverlay :=
  { overlayBase with
    animation := { enabled := true, type := some "fade-in", duration := 1, delay := none } }

/-- Overlay with an enabled fade-in of duration 1 and delay 2. -/
def overlayFadeDelay : TextOverlay :=
  { overlayBase with
    animation := { enabled := true, type := some "fade-in", duration := 1, delay := some 2 } }

/-- Overlay with an enabled slide effect of duration 1 and no delay. -/
def overlaySlide : TextOverlay :=
  { overlayBase with
    animation := { enabled := true, type := some "slide-left", duration := 1, delay := none } }

/-- Overlay with an enabled slide-up of duration 1 and no delay. -/
def overlaySlideUp : TextOverlay :=
  { overlayBase with
    animation := { enabled := true, type := some "slide-up", duration := 1, delay := none } }

/-- Overlay with an enabled slide-right of duration 1 and no delay. -/
def overlaySlideRight : TextOverlay :=
  { overlayBase with
    animation := { enabled := true, type := some "slide-right", duration := 1, delay := none } }

/-- A concrete symbolic-variable environment. -/
def envSample : FilterEnv := { w := 1920, h := 1080, text_w := 200, text_h := 50 }

/- ========== Claims ========== -/

/-- `Rat.floor` agrees with the mathematical floor on `ℚ`. -/
theorem jsRound_eq_floor (x : ℚ) : jsRound x = Int.floor (x + 1 / 2) := by
  unfold jsRound
  rw [Rat.floor_def', Rat.floor_def]

/-- C1: for every font-size value `v` and video height `H`, the resolved
pixel size equals `round(v/100 * H)` when `v ≤ 20`, and equals `v`
unchanged when `v > 20`. -/
theorem claim_C1 (v H : ℚ) :
    (v ≤ 20 → calculateFontSize v H = ((jsRound (v / 100 * H) : ℤ) : ℚ)) ∧
    (20 < v → calculateFontSize v H = v) := by
  constructor
  · intro h
    simp [calculateFontSize, h]
  · intro h
    simp [calculateFontSize, not_le.mpr h]

/-- Witness for C1 at `v = 10, H = 1080` and `v = 25, H = 1080`. -/
theorem claim_C1_witness :
    calculateFontSize 10 1080 = ((jsRound (10 / 100 * 1080) : ℤ) : ℚ) ∧
    calculateFontSize 25 1080 = 25 :=
  ⟨(claim_C1 10 1080).1 (by norm_num), (claim_C1 25 1080).2 (by norm_num)⟩

/-- C6 (amended): font size resolution is a total function (it is a Lean
function), and it is monotonic within each branch of the 20-threshold:
for `a ≤ b` with either both values ≤ 20 (and `H ≥ 0`) or both > 20, the
resolved size of `a` is ≤ the resolved size of `b`. Monotonicity across
the threshold fails (see the counterexample). -/
theorem claim_C6 (a b H : ℚ) (hH : 0 ≤ H) (hab : a ≤ b)
    (hbr : b ≤ 20 ∨ 20 < a) :
    calculateFontSize a H ≤ calculateFontSize b H := by
  rcases hbr with hb | ha
  · have ha : a ≤ 20 := le_trans hab hb
    simp only [calculateFontSize, if_pos ha, if_pos hb, jsRound_eq_floor]
    have hm : a / 100 * H ≤ b / 100 * H := by
      have h100 : a / 100 ≤ b / 100 := by linarith
      exact mul_le_mul_of_nonneg_right h100 hH
    exact_mod_cast Int.floor_mono (by linarith)
  · have hb' : 20 < b := lt_of_lt_of_le ha hab
    simp only [calculateFontSize, if_neg (not_le.mpr ha), if_neg (not_le.mpr hb')]
    exact hab

/-- Witness for C6 (amended) at `a = 5, b = 10, H = 1080`. -/
theorem claim_C6_witness :
    calculateFontSize 5 1080 ≤ calculateFontSize 10 1080 :=
  claim_C6 5 10 1080 (by norm_num) (by norm_num) (Or.inl (by norm_num))

/-- Counterexample to C6 as stated: resolution is not monotonic at the
threshold; `20 ≤ 21` but `calculateFontSize 20 1080 = 216 > 21 =
calculateFontSize 21 1080`. -/
theorem claim_C6_cex :
    calculateFontSize 20 1080 = 216 ∧ calculateFontSize 21 1080 = 21 ∧
    ¬ calculateFontSize 20 1080 ≤ calculateFontSize 21 1080 := by
  have h1 : calculateFontSize 20 1080 = 216 := by
    norm_num [calculateFontSize, jsRound_eq_floor]
  have h2 : calculateFontSize 21 1080 = 21 := by
    norm_num [calculateFontSize]
  refine ⟨h1, h2, ?_⟩
  rw [h1, h2]
  norm_num

/-- C4: when `animation.enabled` is false (or the flag is absent — both
are falsy), the animation stage appends exactly the visibility gate
`:enable='between(t,start,end)'` and nothing else, with no warning,
regardless of which effect variant is named; likewise
`EffectsManager.generateEffectFilter` returns the gate alone. -/
theorem claim_C4 (filter : String) (o : TextOverlay) (ctx : Ctx) (coords : String)
    (h : o.animation.enabled = false) :
    AnimationStyle.applyW filter o ctx =
      (filter ++ enableGate o.startTime o.endTime, false) ∧
    EffectsManager.generateEffectFilter o coords ctx.videoHeight =
      (enableGate o.startTime o.endTime, false) := by
  constructor
  · simp [AnimationStyle.applyW, h]
  · simp [EffectsManager.generateEffectFilter, h]

/-- Witness for C4 on a concrete overlay that names "slide-up" while
disabled. -/
theorem claim_C4_witness :
    AnimationStyle.applyW "f" overlayDisabledAnim { videoHeight := 1080 } =
      ("f" ++ enableGate overlayDisabledAnim.startTime overlayDisabledAnim.endTime, false) ∧
    EffectsManager.generateEffectFilter overlayDisabledAnim "c" (1080 : ℚ) =
      (enableGate overlayDisabledAnim.startTime overlayDisabledAnim.endTime, false) :=
  claim_C4 "f" overlayDisabledAnim { videoHeight := 1080 } "c" rfl

/-- C5: when the animation is enabled but names an identifier outside the
registered set, the effect lookup fails (the source `throw`), the catch
branch emits exactly the plain visibility gate, and a recoverable warning
is surfaced; no error escapes (the apply function is total). -/
theorem claim_C5 (filter : String) (o : TextOverlay) (ctx : Ctx) (ty : String)
    (hen : o.animation.enabled = true) (hty : o.animation.type = some ty)
    (hne : ty ≠ "") (hreg : ty ∉ registeredEffectNames) :
    EffectFactory.getEffect ty = none ∧
    AnimationStyle.applyW filter o ctx =
      (filter ++ enableGate o.startTime o.endTime, true) := by
  have hget : EffectFactory.getEffect ty = none := by
    simp only [registeredEffectNames, List.mem_cons, List.not_mem_nil, or_false,
      not_or] at hreg
    obtain ⟨h1, h2, h3, h4, h5, h6, h7, h8⟩ := hreg
    simp [EffectFactory.getEffect, h1, h2, h3, h4, h5, h6, h7, h8]
  refine ⟨hget, ?_⟩
  simp [AnimationStyle.applyW, hen, hty, animTypeTruthy, hne, hget]

/-- Witness for C5 with the unrecognized identifier "spin". -/
theorem claim_C5_witness :
    EffectFactory.getEffect "spin" = none ∧
    AnimationStyle.applyW "f" overlaySpin { videoHeight := 1080 } =
      ("f" ++ enableGate overlaySpin.startTime overlaySpin.endTime, true) :=
  claim_C5 "f" overlaySpin { videoHeight := 1080 } "spin" rfl rfl
    (by decide) (by decide)

/-- C9 (amended): an unknown preset name resolves to full-center, and a
malformed per-axis value that does not contain a '%' character (and is
not numeric) resolves that axis to full-center; no error is ever raised
(the resolver is a total function). A malformed string that does contain
'%' is instead treated as a percentage with a NaN coefficient (see the
counterexample). -/
theorem claim_C9 (s sx sy : String) (vw vh : ℚ) (ta : TextAlign)
    (hs : presetPositions.lookup s = none)
    (hx1 : strContains sx '%' = false) (hx2 : jsParseFloat sx = none)
    (hy1 : strContains sy '%' = false) (hy2 : jsParseFloat sy = none) :
    getPositionCoordinates (Position.preset s) vw vh ta = "(w-text_w)/2:(h-text_h)/2" ∧
    getPositionCoordinates (Position.obj (some (PosVal.str sx)) (some (PosVal.str sy)))
      vw vh ta = "(w-text_w)/2:(h-text_h)/2" := by
  constructor
  · simp [getPositionCoordinates, hs]
  · simp [getPositionCoordinates, xCoord, yCoord, hx1, hx2, hy1, hy2]

/-- Witness for C9 on the unknown preset "sideways" and the malformed
axes "abc" / "xyz". -/
theorem claim_C9_witness :
    getPositionCoordinates (Position.preset "sideways") 1920 1080 TextAlign.center =
      "(w-text_w)/2:(h-text_h)/2" ∧
    getPositionCoordinates
      (Position.obj (some (PosVal.str "abc")) (some (PosVal.str "xyz")))
      1920 1080 TextAlign.center = "(w-text_w)/2:(h-text_h)/2" :=
  claim_C9 "sideways" "abc" "xyz" 1920 1080 TextAlign.center
    (by decide) (by decide) (by decide) (by decide) (by decide)

/-- Counterexample to C9 as stated: the malformed position
`{x: "abc%", y: "abc"}` is neither a valid percentage/pixel value nor a
preset, yet the resolver does not return the full-center pair — the
'%'-containing axis becomes a NaN percentage expression. -/
theorem claim_C9_cex :
    getPositionCoordinates
      (Position.obj (some (PosVal.str "abc%")) (some (PosVal.str "abc")))
      1920 1080 TextAlign.center = "w*NaN-text_w/2:(h-text_h)/2" ∧
    ("w*NaN-text_w/2:(h-text_h)/2" : String) ≠ "(w-text_w)/2:(h-text_h)/2" := by
  refine ⟨by decide, by decide⟩

/-- C10: the filter expression produced by the whole compile step is
independent of the probed video width — two runs differing only in the
width component of the probed dimensions produce identical output (the
position stage passes the constant 1920 and the expressions reference
only the renderer's symbolic `w`). -/
theorem claim_C10 (config : List TextOverlay) (w1 w2 h : ℚ) :
    generateVideoFilters config { width := w1, height := h } =
      generateVideoFilters config { width := w2, height := h } := rfl

/-- C7 (amended): for the opacity-based effects (fade-in/zoom-in entry,
fade-out/zoom-out exit) with duration `d > 0` and a zero delay, the alpha
expression is the piecewise-linear ramp anchored at `start` (entry) resp.
`end - d` (exit): on the ramp window its value is `(t-start)/d` (0→1)
resp. `(end-t)/d` (1→0), and it is clamped to 1 at every time outside the
ramp window within `[start, end]`. With a nonzero delay the expression is
not clamped outside the ramp window (see the counterexample). -/
theorem claim_C7 (o : TextOverlay) (d : ℚ)
    (hd : o.animation.duration = d) (hdpos : 0 < d)
    (hdelay : o.animation.delay.getD 0 = 0) :
    (∀ t, t < o.startTime + d → fadeInAlphaVal o t = (t - o.startTime) / d) ∧
    (∀ t, o.startTime + d ≤ t → fadeInAlphaVal o t = 1) ∧
    fadeInAlphaVal o o.startTime = 0 ∧
    (∀ t, t < o.startTime + d → zoomInAlphaVal o t = (t - o.startTime) / d) ∧
    (∀ t, o.startTime + d ≤ t → zoomInAlphaVal o t = 1) ∧
    zoomInAlphaVal o o.startTime = 0 ∧
    (∀ t, o.endTime - d < t → fadeOutAlphaVal o t = (o.endTime - t) / d) ∧
    (∀ t, t ≤ o.endTime - d → fadeOutAlphaVal o t = 1) ∧
    fadeOutAlphaVal o o.endTime = 0 ∧
    (∀ t, o.endTime - d < t → zoomOutAlphaVal o t = (o.endTime - t) / d) ∧
    (∀ t, t ≤ o.endTime - d → zoomOutAlphaVal o t = 1) ∧
    zoomOutAlphaVal o o.endTime = 0 := by
  have hdur : ∀ k, effectDuration k o = d := fun k => by
    simp [effectDuration, jsOrNum, hd, hdpos.ne']
  have hdel : effectDelay o = 0 := hdelay
  refine ⟨?_, ?_, ?_, ?_, ?_, ?_, ?_, ?_, ?_, ?_, ?_, ?_⟩
  · intro t ht
    simp only [fadeInAlphaVal, hdur, hdel, add_zero]
    rw [if_pos ht]
  · intro t ht
    simp only [fadeInAlphaVal, hdur, hdel, add_zero]
    rw [if_neg (not_lt.mpr ht)]
  · simp only [fadeInAlphaVal, hdur, hdel, add_zero]
    rw [if_pos (by linarith)]
    simp
  · intro t ht
    simp only [zoomInAlphaVal, hdur, hdel, add_zero]
    rw [if_pos ht]
  · intro t ht
    simp only [zoomInAlphaVal, hdur, hdel, add_zero]
    rw [if_neg (not_lt.mpr ht)]
  · simp only [zoomInAlphaVal, hdur, hdel, add_zero]
    rw [if_pos (by linarith)]
    simp
  · intro t ht
    simp only [fadeOutAlphaVal, hdur, hdel, sub_zero]
    rw [if_pos ht]
  · intro t ht
    simp only [fadeOutAlphaVal, hdur, hdel, sub_zero]
    rw [if_neg (not_lt.mpr ht)]
  · simp only [fadeOutAlphaVal, hdur, hdel, sub_zero]
    rw [if_pos (by linarith)]
    simp
  · intro t ht
    simp only [zoomOutAlphaVal, hdur, hdel, sub_zero]
    rw [if_pos ht]
  · intro t ht
    simp only [zoomOutAlphaVal, hdur, hdel, sub_zero]
    rw [if_neg (not_lt.mpr ht)]
  · simp only [zoomOutAlphaVal, hdur, hdel, sub_zero]
    rw [if_pos (by linarith)]
    simp

/-- Witness for C7 on a fade-in/fade-out overlay with duration 1 and no
delay. -/
theorem claim_C7_witness :
    fadeInAlphaVal overlayFade overlayFade.startTime = 0 ∧
    fadeOutAlphaVal overlayFade overlayFade.endTime = 0 ∧
    fadeInAlphaVal overlayFade (overlayFade.startTime + 2) = 1 := by
  have h := claim_C7 overlayFade 1 rfl one_pos rfl
  exact ⟨h.2.2.1, h.2.2.2.2.2.2.2.2.1,
    h.2.1 _ (by norm_num [overlayFade, overlayBase])⟩

/-- Counterexample to C7 as stated: with a delay of 2 (duration 1,
start 0, end 10) the fade-in alpha at `t = 0` — inside `[start, end]` but
outside the ramp window `[2, 3]` — evaluates to -2, clamped to neither 0
nor 1. -/
theorem claim_C7_cex :
    overlayFadeDelay.startTime ≤ 0 ∧ (0 : ℚ) ≤ overlayFadeDelay.endTime ∧
    fadeInAlphaVal overlayFadeDelay 0 = -2 ∧
    fadeInAlphaVal overlayFadeDelay 0 ≠ 0 ∧
    fadeInAlphaVal overlayFadeDelay 0 ≠ 1 := by
  have hval : fadeInAlphaVal overlayFadeDelay 0 = -2 := by
    norm_num [fadeInAlphaVal, effectDuration, effectDelay, jsOrNum,
      defaultDuration, overlayFadeDelay, overlayBase]
  refine ⟨?_, ?_, hval, ?_, ?_⟩
  · norm_num [overlayFadeDelay, overlayBase]
  · norm_num [overlayFadeDelay, overlayBase]
  · rw [hval]; norm_num
  · rw [hval]; norm_num

/-- C8 (amended): for slide-right and slide-down with duration `d > 0`,
the emitted coordinate override interpolates linearly from the off-screen
edge offset by the measured text dimension (`-text_w` resp. `-text_h`) to
the statically resolved coordinate over `[start+delay, start+delay+d]`;
the ramp's value at the end of the window equals the static value, and
after the window the coordinate is the static value. (Slide-left and
slide-up do not satisfy this — see the counterexample.) -/
theorem claim_C8 (o : TextOverlay) (env : FilterEnv) (x y d : ℚ)
    (hd : o.animation.duration = d) (hdpos : 0 < d) :
    slideRightXVal env x o (o.startTime + effectDelay o) = -env.text_w ∧
    (∀ t, t < o.startTime + effectDelay o + d →
      slideRightXVal env x o t =
        (1 - (t - (o.startTime + effectDelay o)) / d) * (-env.text_w) +
          (t - (o.startTime + effectDelay o)) / d * x) ∧
    (∀ t, o.startTime + effectDelay o + d ≤ t → slideRightXVal env x o t = x) ∧
    slideRightRamp env x o (o.startTime + effectDelay o + d) = x ∧
    slideDownYVal env y o (o.startTime + effectDelay o) = -env.text_h ∧
    (∀ t, t < o.startTime + effectDelay o + d →
      slideDownYVal env y o t =
        (1 - (t - (o.startTime + effectDelay o)) / d) * (-env.text_h) +
          (t - (o.startTime + effectDelay o)) / d * y) ∧
    (∀ t, o.startTime + effectDelay o + d ≤ t → slideDownYVal env y o t = y) ∧
    slideDownRamp env y o (o.startTime + effectDelay o + d) = y := by
  have hdur : ∀ k, effectDuration k o = d := fun k => by
    simp [effectDuration, jsOrNum, hd, hdpos.ne']
  have hcancel : ∀ a : ℚ, (a + d - a) / d = 1 := fun a => by
    rw [add_sub_cancel_left, div_self hdpos.ne']
  refine ⟨?_, ?_, ?_, ?_, ?_, ?_, ?_, ?_⟩
  · simp only [slideRightXVal, slideRightRamp, hdur]
    rw [if_pos (by linarith)]
    simp
  · intro t ht
    simp only [slideRightXVal, slideRightRamp, hdur]
    rw [if_pos ht]
    ring
  · intro t ht
    simp only [slideRightXVal, hdur]
    rw [if_neg (not_lt.mpr ht)]
  · simp only [slideRightRamp, hdur]
    rw [hcancel]
    ring
  · simp only [slideDownYVal, slideDownRamp, hdur]
    rw [if_pos (by linarith)]
    simp
  · intro t ht
    simp only [slideDownYVal, slideDownRamp, hdur]
    rw [if_pos ht]
    ring
  · intro t ht
    simp only [slideDownYVal, hdur]
    rw [if_neg (not_lt.mpr ht)]
  · simp only [slideDownRamp, hdur]
    rw [hcancel]
    ring

/-- Witness for C8 on a slide-right overlay with duration 1 and no delay:
the ramp starts at `-text_w` and its value at the end of the window is
the static coordinate 100. -/
theorem claim_C8_witness :
    slideRightXVal envSample 100 overlaySlideRight
      (overlaySlideRight.startTime + effectDelay overlaySlideRight) = -envSample.text_w ∧
    slideRightRamp envSample 100 overlaySlideRight
      (overlaySlideRight.startTime + effectDelay overlaySlideRight + 1) = 100 := by
  have h := claim_C8 overlaySlideRight envSample 100 100 1 rfl one_pos
  exact ⟨h.1, h.2.2.2.1⟩

/-- Counterexample to C8 as stated: for slide-left (start 0, duration 1,
no delay, static x 100, width 1920) the ramp's value at the end of the
window is 0, not the static coordinate 100 the expression reverts to; for
slide-up the ramp ends at `h - text_h = 1030`, not the static y 500. -/
theorem claim_C8_cex :
    slideLeftRamp envSample overlaySlide 1 = 0 ∧
    slideLeftXVal envSample 100 overlaySlide 1 = 100 ∧
    (0 : ℚ) ≠ 100 ∧
    slideUpRamp envSample overlaySlideUp 1 = 1030 ∧
    slideUpYVal envSample 500 overlaySlideUp 1 = 500 ∧
    (1030 : ℚ) ≠ 500 := by
  refine ⟨?_, ?_, by norm_num, ?_, ?_, by norm_num⟩
  · norm_num [slideLeftRamp, effectDuration, effectDelay, jsOrNum,
      defaultDuration, overlaySlide, overlayBase, envSample]
  · norm_num [slideLeftXVal, effectDuration, effectDelay, jsOrNum,
      defaultDuration, overlaySlide, overlayBase, envSample]
  · norm_num [slideUpRamp, effectDuration, effectDelay, jsOrNum,
      defaultDuration, overlaySlideUp, overlayBase, envSample]
  · norm_num [slideUpYVal, effectDuration, effectDelay, jsOrNum,
      defaultDuration, overlaySlideUp, overlayBase, envSample]

/- ========== Layout lemmas for the two-line block claim ========== -/

/-- Every element's line number is bounded by the fold maximum used in
`sortedLines`. -/
theorem line_le_foldMax (els : List TextElement) (e : TextElement) (he : e ∈ els) :
    e.line ≤ els.foldr (fun e m => max e.line m) 0 := by
  induction els with
  | nil => cases he
  | cons a as ih =>
    rcases List.mem_cons.mp he with rfl | h
    · exact le_max_left _ _
    · exact le_trans (ih h) (le_max_right _ _)

/-- Every element's line number occurs in `sortedLines`. -/
theorem mem_sortedLines (els : List TextElement) (e : TextElement) (he : e ∈ els) :
    e.line ∈ sortedLines els := by
  unfold sortedLines
  refine List.mem_filter.mpr ⟨?_, ?_⟩
  · exact List.mem_range.mpr (Nat.lt_succ_of_le (line_le_foldMax els e he))
  · exact List.any_eq_true.mpr ⟨e, he, by simp⟩

/-- `sortedLines` is strictly ascending (it filters `List.range`). -/
theorem sortedLines_sorted (els : List TextElement) :
    (sortedLines els).Pairwise (· < ·) :=
  (List.pairwise_lt_range _).filter _

/-- `calculateStartingYForBlock` is the block's center-Y minus half the
total height, in every branch. -/
theorem startingY_eq_center_sub (oy : Option PosVal) (th vh : ℚ) :
    calculateStartingYForBlock oy th vh = jsSub (blockCenterY oy vh) (some (th / 2)) := by
  rcases oy with _ | pv
  · simp [calculateStartingYForBlock, blockCenterY, jsSub]
  rcases pv with s | v
  · by_cases h : strContains s '%'
    · simp [calculateStartingYForBlock, blockCenterY, h]
    · rcases hp : jsParseFloat s with _ | q <;>
        simp [calculateStartingYForBlock, blockCenterY, h, hp, jsSub]
  · rcases v with _ | q <;> simp [calculateStartingYForBlock, blockCenterY, jsSub]

/-- C2: for a two-line word-element overlay occupying lines `a < b` with
line heights `h1 = lineHeightOf o vh a` and `h2 = lineHeightOf o vh b`
(each a max resolved font size × 1.2) whose declared position resolves to
center-Y `Y`, layout expansion assigns every element of the first line
the Y-coordinate `Y - (h1+h2)/2` and every element of the second line
that value plus `h1`. -/
theorem claim_C2 (o : TextOverlay) (vh : ℚ) (a b : ℕ) (Y : ℚ)
    (hlines : sortedLines o.textElements = [a, b])
    (hY : blockCenterY (posY o.position) vh = some Y) :
    ((parseTextElements o vh).map recordY =
      o.textElements.map (fun e =>
        some (if e.line = a then
                Y - (lineHeightOf o vh a + lineHeightOf o vh b) / 2
              else
                Y - (lineHeightOf o vh a + lineHeightOf o vh b) / 2 +
                  lineHeightOf o vh a))) ∧
    (∀ (o2 : TextOverlay) (vh2 Y2 : ℚ) (l1 l2 : String),
      o2.textElements = [] →
      splitNewlines o2.text = [l1, l2] →
      blockCenterY (posY o2.position) vh2 = some Y2 →
      (parseMultiLineText o2 vh2).map recordY =
        [some (Y2 - (calculateFontSize o2.fontSize vh2 * 1.2 +
           calculateFontSize o2.fontSize vh2 * 1.2) / 2),
         some (Y2 - (calculateFontSize o2.fontSize vh2 * 1.2 +
           calculateFontSize o2.fontSize vh2 * 1.2) / 2 +
           calculateFontSize o2.fontSize vh2 * 1.2)]) := by
  refine ⟨?_, ?_⟩
  case refine_2 =>
    intro o2 vh2 Y2 l1 l2 h0 hsplit hY2
    have h1 : ¬ (o2.textElements ≠ []) := by simp [h0]
    rw [parseMultiLineText, if_neg h1]
    simp only [hsplit, List.length_cons, List.length_nil]
    rw [if_neg (by norm_num)]
    rw [startingY_eq_center_sub, hY2]
    simp only [List.mapIdx, List.mapIdx.go, List.map, recordY, posY, jsSub, jsAdd]
    norm_num
  have hab : a < b := by
    have hp := sortedLines_sorted o.textElements
    rw [hlines] at hp
    exact (List.pairwise_cons.mp hp).1 b (by simp)
  have hba : b ≠ a := (ne_of_lt hab).symm
  have htot : totalBlockHeight o vh = lineHeightOf o vh a + lineHeightOf o vh b := by
    simp [totalBlockHeight, hlines]
  have hsY : startingYOfBlock o vh =
      some (Y - (lineHeightOf o vh a + lineHeightOf o vh b) / 2) := by
    rw [startingYOfBlock, startingY_eq_center_sub, hY, htot]
    simp [jsSub]
  have hyA : lineYFun o vh a =
      some (Y - (lineHeightOf o vh a + lineHeightOf o vh b) / 2) := by
    simp [lineYFun, hlines, hsY, assignYs, List.lookup]
  have hyB : lineYFun o vh b =
      some (Y - (lineHeightOf o vh a + lineHeightOf o vh b) / 2 +
        lineHeightOf o vh a) := by
    have hbeq : (b == a) = false := beq_eq_false_iff_ne.mpr hba
    simp [lineYFun, hlines, hsY, assignYs, List.lookup, hbeq, jsAdd]
  unfold parseTextElements
  rw [List.map_map]
  apply List.map_congr_left
  intro e he
  have hm := mem_sortedLines o.textElements e he
  rw [hlines] at hm
  have hrec : (recordY ∘ mergeTextElement o (lineYFun o vh)) e = lineYFun o vh e.line := rfl
  rw [hrec]
  rcases List.mem_cons.mp hm with h | h
  · rw [h, hyA, if_pos rfl]
  · have hb : e.line = b := by simpa using h
    rw [hb, hyB, if_neg hba]

/-- Witness for C2: the spec's scenario — two elements on lines 0 and 1,
parent font size 6 on a 1000-px-tall video (60-px text, 72-px line
heights), center-Y 50% = 500 — yields line Ys 428 and 500. -/
theorem claim_C2_witness :
    sortedLines overlayTwoLines.textElements = [0, 1] ∧
    blockCenterY (posY overlayTwoLines.position) 1000 = some 500 ∧
    (parseTextElements overlayTwoLines 1000).map recordY = [some 428, some 500] ∧
    (parseMultiLineText overlayPlainTwo 1000).map recordY = [some 428, some 500] := by
  refine ⟨by decide, by with_unfolding_all rfl, ?_, ?_⟩
  · rw [(claim_C2 overlayTwoLines 1000 0 1 500 (by decide) (by with_unfolding_all rfl)).1]
    with_unfolding_all rfl
  · rw [(claim_C2 overlayTwoLines 1000 0 1 500 (by decide) (by with_unfolding_all rfl)).2
      overlayPlainTwo 1000 500 "Hello" "World" rfl (by with_unfolding_all rfl)
      (by with_unfolding_all rfl)]
    with_unfolding_all rfl

/-- C3: for every overlay and word element of it, the merged record is in
the layout output, and any sub-property of a nested spec object (outline,
shadow, box, animation) that the element does not override keeps the
parent overlay's value; an absent nested override keeps the whole parent
object. -/
theorem claim_C3 (o : TextOverlay) (vh : ℚ) (e : TextElement)
    (he : e ∈ o.textElements) :
    mergeTextElement o (lineYFun o vh) e ∈ parseTextElements o vh ∧
    (∀ p, e.textOutline = some p →
      (p.enabled = none →
        (mergeTextElement o (lineYFun o vh) e).textOutline.enabled = o.textOutline.enabled) ∧
      (p.color = none →
        (mergeTextElement o (lineYFun o vh) e).textOutline.color = o.textOutline.color) ∧
      (p.width = none →
        (mergeTextElement o (lineYFun o vh) e).textOutline.width = o.textOutline.width)) ∧
    (e.textOutline = none →
      (mergeTextElement o (lineYFun o vh) e).textOutline = o.textOutline) ∧
    (∀ p, e.textShadow = some p →
      (p.enabled = none →
        (mergeTextElement o (lineYFun o vh) e).textShadow.enabled = o.textShadow.enabled) ∧
      (p.color = none →
        (mergeTextElement o (lineYFun o vh) e).textShadow.color = o.textShadow.color) ∧
      (p.offsetX = none →
        (mergeTextElement o (lineYFun o vh) e).textShadow.offsetX = o.textShadow.offsetX) ∧
      (p.offsetY = none →
        (mergeTextElement o (lineYFun o vh) e).textShadow.offsetY = o.textShadow.offsetY)) ∧
    (e.textShadow = none →
      (mergeTextElement o (lineYFun o vh) e).textShadow = o.textShadow) ∧
    (∀ p, e.textBox = some p →
      (p.enabled = none →
        (mergeTextElement o (lineYFun o vh) e).textBox.enabled = o.textBox.enabled) ∧
      (p.color = none →
        (mergeTextElement o (lineYFun o vh) e).textBox.color = o.textBox.color) ∧
      (p.padding = none →
        (mergeTextElement o (lineYFun o vh) e).textBox.padding = o.textBox.padding)) ∧
    (e.textBox = none →
      (mergeTextElement o (lineYFun o vh) e).textBox = o.textBox) ∧
    (∀ p, e.animation = some p →
      (p.enabled = none →
        (mergeTextElement o (lineYFun o vh) e).animation.enabled = o.animation.enabled) ∧
      (p.type = none →
        (mergeTextElement o (lineYFun o vh) e).animation.type = o.animation.type) ∧
      (p.duration = none →
        (mergeTextElement o (lineYFun o vh) e).animation.duration = o.animation.duration) ∧
      (p.delay = none →
        (mergeTextElement o (lineYFun o vh) e).animation.delay = o.animation.delay)) ∧
    (e.animation = none →
      (mergeTextElement o (lineYFun o vh) e).animation = o.animation) := by
  refine ⟨?_, ?_, ?_, ?_, ?_, ?_, ?_, ?_, ?_⟩
  · exact List.mem_map.mpr ⟨e, he, rfl⟩
  · intro p hp
    refine ⟨?_, ?_, ?_⟩ <;> intro hn <;>
      simp [mergeTextElement, mergeOutline, hp, hn]
  · intro hn
    simp [mergeTextElement, mergeOutline, hn]
  · intro p hp
    refine ⟨?_, ?_, ?_, ?_⟩ <;> intro hn <;>
      simp [mergeTextElement, mergeShadow, hp, hn]
  · intro hn
    simp [mergeTextElement, mergeShadow, hn]
  · intro p hp
    refine ⟨?_, ?_, ?_⟩ <;> intro hn <;>
      simp [mergeTextElement, mergeBox, hp, hn]
  · intro hn
    simp [mergeTextElement, mergeBox, hn]
  · intro p hp
    refine ⟨?_, ?_, ?_, ?_⟩ <;> intro hn <;>
      simp [mergeTextElement, mergeAnimation, hp, hn]
  · intro hn
    simp [mergeTextElement, mergeAnimation, hn]

/-- Witness for C3: the element overriding only `textOutline.color`
keeps the parent's `outline.width` (3) and `outline.enabled` (true). -/
theorem claim_C3_witness :
    mergeTextElement overlayMergeTest (lineYFun overlayMergeTest 1000) elemMergeTest ∈
      parseTextElements overlayMergeTest 1000 ∧
    (mergeTextElement overlayMergeTest (lineYFun overlayMergeTest 1000)
        elemMergeTest).textOutline.enabled = overlayMergeTest.textOutline.enabled ∧
    (mergeTextElement overlayMergeTest (lineYFun overlayMergeTest 1000)
        elemMergeTest).textOutline.width = overlayMergeTest.textOutline.width := by
  have h := claim_C3 overlayMergeTest 1000 elemMergeTest (by decide)
  have hp := h.2.1 outlineColorPatch (by decide)
  exact ⟨h.1, hp.1 rfl, hp.2.2 rfl⟩

end VC
